import Mathlib

/-!
Shallow embedding of `src/dodal/devices/oav/oav_parameters.py` (class
`OAVParameters`) and verification of the specification's claims about it.

Modelling conventions:
* Python exceptions are values of the inductive `PyError`; a Python
  function that may raise returns `Except PyError α`.
* JSON values are `JValue`; Python dicts appear as association lists
  (first binding of a key wins, mirroring unique-key dicts produced by
  `json.load`).
* A `ChainMap` is its `maps` list: a list of dicts searched front to back.
* Python floats parsed from JSON/XML decimal text are modelled as `ℚ`;
  the claims only exercise exact decimal values, where float semantics
  and rational semantics agree.
* `str(self.zoom)` (the rendering of a Python float into the marker
  string of the display-configuration file) is passed in as an explicit
  string argument `zoomStr`.
-/

/-- Python exceptions that the embedded code can raise.  The only
exception classes defined by the module's own error taxonomy
(`dodal.devices.oav.oav_errors`) are `OAVError_ZoomLevelNotFound` and
`OAVError_BeamPositionNotFound`; the rest are Python built-ins. -/
inductive PyError where
  | valueError
  | typeError (msg : String)
  | assertionError
  | fileNotFoundError
  | jsonDecodeError
  | attributeError
  | indexError
  | unboundLocalError (varName : String)
  | zoomLevelNotFound (msg : String)
  | beamPositionNotFound (msg : String)
  deriving DecidableEq, Repr

/-- Does an exception belong to the module's own typed error taxonomy
(`oav_errors`)?  True exactly for the two `OAVError_*` classes. -/
def PyError.isOAVModuleError : PyError → Bool
  | .zoomLevelNotFound _ => true
  | .beamPositionNotFound _ => true
  | _ => false

/-- JSON values as loaded by `json.load`. -/
inductive JValue where
  | num (q : ℚ)
  | str (s : String)
  | bool (b : Bool)
  | null
  | obj (entries : List (String × JValue))

/-- `isinstance(v, dict)` on a JSON value. -/
def JValue.isDict : JValue → Bool
  | .obj _ => true
  | _ => false

/-- A Python dict from `json.load`: an association list with unique keys;
lookup returns the first binding. -/
abbrev Dict := List (String × JValue)

/-- `d.get(k)` / `d[k]` membership-respecting lookup on a dict. -/
def dictGet (d : Dict) (k : String) : Option JValue :=
  match d.find? (fun p => p.1 == k) with
  | some p => some p.2
  | none => none

/-- A `collections.ChainMap` is determined by its `maps` list. -/
abbrev PyChainMap := List Dict

/-- `ChainMap.get(k, default=None)` without the default: search the maps
front to back, returning the first hit. -/
def cmGet (cm : PyChainMap) (k : String) : Option JValue :=
  match cm with
  | [] => none
  | m :: rest =>
    match dictGet m k with
    | some v => some v
    | none => cmGet rest k

/-- The outcome of `open(filename)` + `json.load(f)` on the JSON config
file: the file can be missing (`open` raises `FileNotFoundError`),
malformed (`json.load` raises `json.JSONDecodeError`), or parse to a
JSON value. -/
inductive JsonFile where
  | missing
  | malformed
  | parsed (v : JValue)

/-- `OAVParameters.load_json`: loads the JSON from the file; top-level
entries with non-dict values are popped into `global_params`, the
remaining (dict-valued) entries are `context_dicts`.  `open` on a missing
file raises the built-in `FileNotFoundError`; `json.load` on malformed
text raises `json.JSONDecodeError`; a parsed top-level value that is not
a dict makes `raw_params.items()` raise `AttributeError`. -/
def load_json (file : JsonFile) : Except PyError (Dict × Dict) :=
  match file with
  | .missing => .error .fileNotFoundError
  | .malformed => .error .jsonDecodeError
  | .parsed (.obj raw_params) =>
    let global_params := raw_params.filter (fun p => !p.2.isDict)
    let context_dicts := raw_params.filter (fun p => p.2.isDict)
    .ok (global_params, context_dicts)
  | .parsed _ => .error .attributeError

/-- `OAVParameters.update_context`: `self.active_params.maps.pop()`
removes the LAST map of the chain (Python `list.pop()` with no argument
pops the final element), then `new_child(self.context_dicts[context])`
pushes the new context dict at the front. -/
def update_context (active_params : PyChainMap) (new_context : Dict) : PyChainMap :=
  new_context :: active_params.dropLast

/-- Python `str.strip()` with no argument: remove leading and trailing
whitespace, on the underlying character list. -/
def trimChars (l : List Char) : List Char :=
  ((l.dropWhile Char.isWhitespace).reverse.dropWhile Char.isWhitespace).reverse

/-- The numeric value of a run of decimal digit characters. -/
def digitsToNat (l : List Char) : ℕ :=
  l.foldl (fun n c => 10 * n + (c.toNat - 48)) 0

/-- Python `int(s)` on a string: strip whitespace, then parse an
optionally-signed decimal integer; anything else raises `ValueError`.
(Restricted to plain decimal literals, which is all the repository's
input files contain.) -/
def pyIntOfString (s : String) : Except PyError ℤ :=
  let t := trimChars s.data
  let core := if t.head? = some '-' ∨ t.head? = some '+' then t.drop 1 else t
  let sign : ℤ := if t.head? = some '-' then -1 else 1
  if !core.isEmpty && core.all Char.isDigit then .ok (sign * digitsToNat core)
  else .error .valueError

/-- Splitting a character list at every `'.'` (Python `s.split(".")`). -/
def splitOnDot (l : List Char) : List (List Char) :=
  match l with
  | [] => [[]]
  | c :: rest =>
    if c = '.' then [] :: splitOnDot rest
    else
      match splitOnDot rest with
      | [] => [[c]]
      | g :: gs => (c :: g) :: gs

/-- Python `float(s)` on a string: strip whitespace, then parse an
optionally-signed plain decimal literal (digits, optionally a point and
more digits); anything else raises `ValueError`.  (Restricted to plain
decimal literals, which is all the repository's input files contain.) -/
def pyFloatOfString (s : String) : Except PyError ℚ :=
  let t := trimChars s.data
  let core := if t.head? = some '-' ∨ t.head? = some '+' then t.drop 1 else t
  let sign : ℚ := if t.head? = some '-' then -1 else 1
  match splitOnDot core with
  | [a] =>
    if !a.isEmpty && a.all Char.isDigit then .ok (sign * (digitsToNat a : ℚ))
    else .error .valueError
  | [a, b] =>
    if (!a.isEmpty || !b.isEmpty) && a.all Char.isDigit && b.all Char.isDigit then
      .ok (sign * ((digitsToNat a : ℚ) + (digitsToNat b : ℚ) / ((10 : ℚ) ^ b.length)))
    else .error .valueError
  | _ => .error .valueError

/-- Python `float(x)` applied to the value a `ChainMap.get` produced:
`None` (a missing key with no default) and dicts raise `TypeError`
without any field name; non-numeric strings raise `ValueError`; numbers
and numeric strings convert.  `True`/`False` convert to `1.0`/`0.0`. -/
def pyFloat : Option JValue → Except PyError ℚ
  | some (.num q) => .ok q
  | some (.str s) => pyFloatOfString s
  | some (.bool b) => .ok (if b then 1 else 0)
  | some .null => .error (.typeError "float() argument must be a string or a number, not NoneType")
  | some (.obj _) => .error (.typeError "float() argument must be a string or a number, not dict")
  | none => .error (.typeError "float() argument must be a string or a number, not NoneType")

/-- Python truncation toward zero, as in `int(float)`. -/
def pyTrunc (q : ℚ) : ℤ := if q < 0 then -⌊-q⌋ else ⌊q⌋

/-- Python `int(x)` applied to the value a `ChainMap.get` produced. -/
def pyInt : Option JValue → Except PyError ℤ
  | some (.num q) => .ok (pyTrunc q)
  | some (.str s) => pyIntOfString s
  | some (.bool b) => .ok (if b then 1 else 0)
  | some .null => .error (.typeError "int() argument must be a string or a number, not NoneType")
  | some (.obj _) => .error (.typeError "int() argument must be a string or a number, not dict")
  | none => .error (.typeError "int() argument must be a string or a number, not NoneType")

/-- Rendering of a JSON scalar by Python `str()`; `str` never raises.
(Number rendering is abstracted as the decimal form of the rational;
no claim depends on it.) -/
def pyStrRender : JValue → String
  | .num q => toString q
  | .str s => s
  | .bool b => if b then "True" else "False"
  | .null => "None"
  | .obj _ => "dict"

/-- Python `str(x)` applied to the value a `ChainMap.get` produced. -/
def pyStr : Option JValue → Except PyError String
  | some v => .ok (pyStrRender v)
  | none => .ok "None"

/-- `type(param)` rendering, as interpolated into the `TypeError`
message by `update` (Python renders e.g. `<class 'float'>`). -/
def pyTypeOf : Option JValue → String
  | some (.num _) => "<class 'float'>"
  | some (.str _) => "<class 'str'>"
  | some (.bool _) => "<class 'bool'>"
  | some .null => "<class 'NoneType'>"
  | some (.obj _) => "<class 'dict'>"
  | none => "<class 'NoneType'>"

/-- The inner helper `update(name, param_type, default=None)` of
`OAVParameters.update_self_from_current_context`:
`param = self.active_params.get(name, default)`, then
`param_type(param)` inside `try ... except AssertionError`, re-raising a
`TypeError` that names the field.  Only `AssertionError` is caught; any
`ValueError`/`TypeError` raised by the coercion itself propagates. -/
def update (active_params : PyChainMap) (name : String)
    (param_type : Option JValue → Except PyError α) (tyName : String)
    (default : Option JValue) : Except PyError α :=
  let param : Option JValue :=
    match cmGet active_params name with
    | some v => some v
    | none => default
  match param_type param with
  | .ok v => .ok v
  | .error .assertionError =>
    .error (.typeError
      (s!"OAV param {name} from the OAV centring params json file has the " ++
       s!"wrong type, should be {tyName} but is {pyTypeOf param}."))
  | .error e => .error e

/-- The typed instance fields set by
`OAVParameters.update_self_from_current_context`, in source order. -/
structure Materialized where
  exposure : ℚ
  acquire_period : ℚ
  gain : ℚ
  canny_edge_upper_threshold : ℚ
  canny_edge_lower_threshold : ℚ
  minimum_height : ℤ
  zoom : ℚ
  preprocess : ℤ
  preprocess_K_size : ℤ
  detection_script_filename : String
  close_ksize : ℤ
  min_callback_time : ℚ
  direction : ℤ
  max_tip_distance : ℚ
  deriving DecidableEq, Repr

/-- `OAVParameters.update_self_from_current_context`: materialize every
declared field from the active layered view via `update`, with the
source's parameter names, target types and defaults, in source order
(the first failing field aborts the whole call, as the first uncaught
exception would in Python). -/
def update_self_from_current_context (active_params : PyChainMap) :
    Except PyError Materialized := do
  let exposure ← update active_params "exposure" pyFloat "<class 'float'>" none
  let acquire_period ← update active_params "acqPeriod" pyFloat "<class 'float'>" none
  let gain ← update active_params "gain" pyFloat "<class 'float'>" none
  let canny_edge_upper_threshold ←
    update active_params "CannyEdgeUpperThreshold" pyFloat "<class 'float'>" none
  let canny_edge_lower_threshold ←
    update active_params "CannyEdgeLowerThreshold" pyFloat "<class 'float'>" (some (.num 5))
  let minimum_height ← update active_params "minheight" pyInt "<class 'int'>" none
  let zoom ← update active_params "zoom" pyFloat "<class 'float'>" none
  let preprocess ← update active_params "preprocess" pyInt "<class 'int'>" none
  let preprocess_K_size ← update active_params "preProcessKSize" pyInt "<class 'int'>" none
  let detection_script_filename ← update active_params "filename" pyStr "<class 'str'>" none
  let close_ksize ← update active_params "close_ksize" pyInt "<class 'int'>" (some (.num 11))
  let min_callback_time ←
    update active_params "min_callback_time" pyFloat "<class 'float'>" (some (.num (8 / 100)))
  let direction ← update active_params "direction" pyInt "<class 'int'>" none
  let max_tip_distance ←
    update active_params "max_tip_distance" pyFloat "<class 'float'>" (some (.num 300))
  pure {
    exposure := exposure
    acquire_period := acquire_period
    gain := gain
    canny_edge_upper_threshold := canny_edge_upper_threshold
    canny_edge_lower_threshold := canny_edge_lower_threshold
    minimum_height := minimum_height
    zoom := zoom
    preprocess := preprocess
    preprocess_K_size := preprocess_K_size
    detection_script_filename := detection_script_filename
    close_ksize := close_ksize
    min_callback_time := min_callback_time
    direction := direction
    max_tip_distance := max_tip_distance
  }

/-- One `zoomLevel` element of the XML calibration file, carrying the
float-parsed text of its `level`, `micronsPerXPixel` and
`micronsPerYPixel` children.  The file is modelled as the list of these
nodes in document order (what `root.findall(".//zoomLevel")` yields). -/
structure ZoomLevelNode where
  level : ℚ
  micronsPerXPixel : ℚ
  micronsPerYPixel : ℚ
  deriving DecidableEq, Repr

/-- The instance fields of `OAVParameters` that `load_microns_per_pixel`
reads and writes, plus the parsed content of `zoom_params_file` (the XML
is re-parsed on every call, so the list stands for the file's current
content).  The `Option` fields start out unset. -/
structure OAVScaleState where
  zoom : ℚ
  max_tip_distance : ℚ
  zoom_params : List ZoomLevelNode
  micronsPerXPixel : Option ℚ
  micronsPerYPixel : Option ℚ
  max_tip_distance_pixels : Option ℚ
  deriving DecidableEq, Repr

/-- The message of the `OAVError_ZoomLevelNotFound` raised by
`load_microns_per_pixel` (the file path is interpolated in the source;
it is abstracted here since no claim depends on it). -/
def zoomLevelNotFoundMsg (zoom : ℚ) : String :=
  s!"Could not find the micronsPer[X,Y]Pixel parameters in the zoom params " ++
  s!"file for zoom level {zoom}."

/-- The scan loop of `load_microns_per_pixel`: starting from
`micronsPerXPixel = micronsPerYPixel = None`, every node whose `level`
equals the requested zoom overwrites both fields, so the LAST match in
document order is what remains. -/
def scanZoomLevels (levels : List ZoomLevelNode) (zoom : ℚ) : Option (ℚ × ℚ) :=
  levels.foldl
    (fun acc node =>
      if node.level = zoom then some (node.micronsPerXPixel, node.micronsPerYPixel)
      else acc)
    none

/-- The `if not zoom: zoom = self.zoom` guard at the top of
`load_microns_per_pixel`: a `None` argument or a falsy float (`0.0`) is
replaced by the stored `self.zoom`. -/
def effectiveZoom (st : OAVScaleState) : Option ℚ → ℚ
  | none => st.zoom
  | some z => if z = 0 then st.zoom else z

/-- `OAVParameters.load_microns_per_pixel(zoom=None)`: `if not zoom`
(i.e. `zoom` is `None` or a falsy float such as `0.0`) replaces the
argument with `self.zoom`; the XML nodes are scanned for `level`
matches; if both fields are still `None` afterwards,
`OAVError_ZoomLevelNotFound` is raised; on success
`max_tip_distance_pixels = max_tip_distance / micronsPerXPixel` is
recomputed. -/
def load_microns_per_pixel (st : OAVScaleState) (zoom : Option ℚ) :
    Except PyError OAVScaleState :=
  match scanZoomLevels st.zoom_params (effectiveZoom st zoom) with
  | none => .error (.zoomLevelNotFound (zoomLevelNotFoundMsg (effectiveZoom st zoom)))
  | some (mx, my) =>
    .ok { st with
      micronsPerXPixel := some mx
      micronsPerYPixel := some my
      max_tip_distance_pixels := some (st.max_tip_distance / mx) }

/-- The marker literal `"zoomLevel = " + str(self.zoom)` looked for by
`_extract_beam_position`; `zoomStr` stands for `str(self.zoom)`. -/
def zoomMarker (zoomStr : String) : String := "zoomLevel = " ++ zoomStr

/-- Python `line.startswith(p)`, on the underlying character lists. -/
def pyStartswith (line p : String) : Bool := p.data.isPrefixOf line.data

/-- Python `s.split(sep)` for a non-empty separator: leftmost
non-overlapping occurrences split the list.  `fuel` bounds the
recursion; with `fuel ≥ l.length` the fuel-exhaustion fallback is never
reached, since every step strictly shortens the list. -/
def pySplitAux (sep : List Char) : ℕ → List Char → List (List Char)
  | _, [] => [[]]
  | 0, l => [l]
  | fuel + 1, c :: rest =>
    if !sep.isEmpty && sep.isPrefixOf (c :: rest) then
      [] :: pySplitAux sep fuel ((c :: rest).drop sep.length)
    else
      match pySplitAux sep fuel rest with
      | [] => [[c]]
      | g :: gs => (c :: g) :: gs

/-- Python `line.split(sep)` on strings (non-empty separator). -/
def pySplit (line sep : String) : List String :=
  (pySplitAux sep.data line.data.length line.data).map List.asString

/-- `int(line.split(" = ")[1])`: split the line on the literal
separator, index element 1 (an `IndexError` if the separator is absent),
and parse it as an integer. -/
def parseCrosshairLine (line : String) : Except PyError ℤ :=
  match (pySplit line " = ").get? 1 with
  | none => .error .indexError
  | some s => pyIntOfString s

/-- `OAVParameters._extract_beam_position`: scan `file_lines` (the
result of `readlines()`, each line keeping its trailing newline) for the
first line that STARTS WITH the marker; take the two following lines and
parse their `" = "`-second fields as the beam centre.  When no line
matches, the loop finishes without ever assigning `crosshair_x_line`, so
the `if crosshair_x_line is None` test raises `UnboundLocalError` — the
`OAVError_BeamPositionNotFound` raise below it is unreachable (and when
the loop did break, both variables are strings, never `None`). -/
def extract_beam_position (zoomStr : String) (file_lines : List String) :
    Except PyError (ℤ × ℤ) :=
  match file_lines.findIdx? (fun l => pyStartswith l (zoomMarker zoomStr)) with
  | none => .error (.unboundLocalError "crosshair_x_line")
  | some i =>
    match file_lines.get? (i + 1), file_lines.get? (i + 2) with
    | some crosshair_x_line, some crosshair_y_line => do
      let bx ← parseCrosshairLine crosshair_x_line
      let by' ← parseCrosshairLine crosshair_y_line
      pure (bx, by')
    | _, _ => .error .indexError

/-- `OAVParameters.calculate_beam_distance`: a pure function of the two
stored beam-centre fields and the two pixel arguments. -/
def calculate_beam_distance (beam_centre_i beam_centre_j : ℤ)
    (horizontal_pixels vertical_pixels : ℤ) : ℤ × ℤ :=
  (beam_centre_i - horizontal_pixels, beam_centre_j - vertical_pixels)

/-- `Except.isOk`-style check, used to state that a call does not raise. -/
def exceptIsOk : Except PyError α → Bool
  | .ok _ => true
  | .error _ => false

/-- A calibration state whose XML holds the claim's table
`{1.0: (2.5, 2.5), 5.0: (0.5, 0.5)}` with `max_tip_distance = 300`. -/
def claimCalibState : OAVScaleState :=
  { zoom := 1
    max_tip_distance := 300
    zoom_params := [⟨1, 5/2, 5/2⟩, ⟨5, 1/2, 1/2⟩]
    micronsPerXPixel := none
    micronsPerYPixel := none
    max_tip_distance_pixels := none }

/-- A calibration state whose XML holds two nodes both at level `5`,
with different scales — document order: `(2.5, 2.5)` then `(0.5, 0.5)`. -/
def dupLevelState : OAVScaleState :=
  { claimCalibState with zoom_params := [⟨5, 5/2, 5/2⟩, ⟨5, 1/2, 1/2⟩] }

/-- A calibration state whose XML holds two nodes both at level `2`,
flanked by a non-matching node. -/
def dupLevelStateB : OAVScaleState :=
  { claimCalibState with zoom_params := [⟨2, 10, 10⟩, ⟨7, 1, 1⟩, ⟨2, 4, 4⟩] }

/-- Is the exception a Python `TypeError`? -/
def PyError.isTypeError : PyError → Bool
  | .typeError _ => true
  | _ => false

/-- The state produced by `load_microns_per_pixel` on `claimCalibState`
at zoom `5`: scale `0.5` and `max_tip_distance_pixels = 600`. -/
def claimCalibPost : OAVScaleState :=
  { claimCalibState with
    micronsPerXPixel := some (1/2)
    micronsPerYPixel := some (1/2)
    max_tip_distance_pixels := some 600 }

/-- The state produced by `load_microns_per_pixel` on `dupLevelState`
at zoom `5`: the LAST matching node's scales. -/
def dupLevelPost : OAVScaleState :=
  { dupLevelState with
    micronsPerXPixel := some (1/2)
    micronsPerYPixel := some (1/2)
    max_tip_distance_pixels := some 600 }

/-- Lemma: the scan loop leaves its accumulator untouched over a run of
nodes none of which matches the requested zoom. -/
theorem foldl_scan_no_match (levels : List ZoomLevelNode) (zoom : ℚ)
    (acc : Option (ℚ × ℚ)) (h : ∀ m ∈ levels, m.level ≠ zoom) :
    levels.foldl
      (fun acc node =>
        if node.level = zoom then some (node.micronsPerXPixel, node.micronsPerYPixel)
        else acc) acc = acc := by
  induction levels generalizing acc with
  | nil => rfl
  | cons m rest ih =>
    simp only [List.foldl_cons]
    rw [if_neg (h m (by simp))]
    exact ih acc (fun x hx => h x (by simp [hx]))

/-- Lemma: the scan returns the values of the last matching node. -/
theorem scanZoomLevels_eq_last (pre post : List ZoomLevelNode) (n : ZoomLevelNode)
    (zoom : ℚ) (hn : n.level = zoom) (hpost : ∀ m ∈ post, m.level ≠ zoom) :
    scanZoomLevels (pre ++ n :: post) zoom =
      some (n.micronsPerXPixel, n.micronsPerYPixel) := by
  unfold scanZoomLevels
  rw [List.foldl_append]
  simp only [List.foldl_cons, if_pos hn]
  exact foldl_scan_no_match post zoom _ hpost

/-- Lemma: the scan returns `none` when no node matches. -/
theorem scanZoomLevels_eq_none (levels : List ZoomLevelNode) (zoom : ℚ)
    (h : ∀ m ∈ levels, m.level ≠ zoom) : scanZoomLevels levels zoom = none :=
  foldl_scan_no_match levels zoom none h

/-- C1: the claim says `update_context` replaces only the top layer of
the active layered view, keeping the global parameters as fallback.  The
code instead pops the LAST layer — the global parameters — and keeps the
previous context dict as the new fallback: after the switch, a
global-only key (`exposure`) no longer resolves, and a key of the OLD
context (`gain`) still resolves even though the new context is empty. -/
theorem update_context_drops_global_layer (top glob new_context : Dict) :
    update_context [top, glob] new_context = [new_context, top] ∧
    cmGet (update_context [[("gain", .num 2)], [("exposure", .num 1)]] []) "exposure" = none ∧
    cmGet (update_context [[("gain", .num 2)], [("exposure", .num 1)]] []) "gain" =
      some (.num 2) :=
  ⟨rfl, rfl, rfl⟩

/-- C2: the claim says a present value that cannot be coerced to its
declared type makes `update_self_from_current_context` raise a
`TypeError` identifying the field.  The code's `try` block only catches
`AssertionError`, which `float`/`int`/`str` never raise, so the
`ValueError` from `float("one point five")` propagates as-is: the
materializer fails with `ValueError`, not with a field-naming
`TypeError`. -/
theorem coercion_failure_raises_valueError_not_typeError :
    update_self_from_current_context [[("exposure", .str "one point five")], []] =
      .error .valueError ∧
    PyError.isTypeError .valueError = false :=
  ⟨rfl, rfl⟩

/-- C3: the claim says a beam-position file with no marker line for the
active zoom makes `_extract_beam_position` raise
`OAVError_BeamPositionNotFound`.  In the code the loop then never
assigns `crosshair_x_line`, so the `if crosshair_x_line is None` test
raises `UnboundLocalError` first: the typed raise is unreachable. -/
theorem no_marker_raises_unboundLocalError (zoomStr : String) (file_lines : List String)
    (h : ∀ l ∈ file_lines, pyStartswith l (zoomMarker zoomStr) = false) :
    extract_beam_position zoomStr file_lines =
      .error (.unboundLocalError "crosshair_x_line") := by
  unfold extract_beam_position
  rw [ List.findIdx?_eq_none_iff.mpr h]

/-- Witness for C3's theorem: a concrete three-line file whose only
marker is for zoom `1.0`, probed at zoom `5.0`. -/
theorem no_marker_raises_unboundLocalError_witness :
    (∀ l ∈ ["zoomLevel = 1.0\n", "x = 1\n", "y = 2\n"],
      pyStartswith l (zoomMarker "5.0") = false) ∧
    extract_beam_position "5.0" ["zoomLevel = 1.0\n", "x = 1\n", "y = 2\n"] =
      .error (.unboundLocalError "crosshair_x_line") :=
  ⟨by decide, no_marker_raises_unboundLocalError "5.0" _ (by decide)⟩

/-- C4 counterexample: with two `zoomLevel` nodes both at level `5`
(document order: scales `5/2` then `1/2`), `load_microns_per_pixel`
returns the LAST node's scale `1/2`, not the first node's `5/2` as the
claim states. -/
theorem first_match_counterexample :
    dupLevelState.zoom_params.head? = some ⟨5, 5/2, 5/2⟩ ∧
    (⟨5, 5/2, 5/2⟩ : ZoomLevelNode).level = 5 ∧
    load_microns_per_pixel dupLevelState (some 5) = .ok dupLevelPost ∧
    dupLevelPost.micronsPerXPixel = some (1/2) ∧
    (1/2 : ℚ) ≠ 5/2 := by
  refine ⟨rfl, rfl, ?_, rfl, by norm_num⟩
  norm_num [load_microns_per_pixel, effectiveZoom, scanZoomLevels, dupLevelState,
    dupLevelPost, claimCalibState]

/-- C4 amended: for every XML file whose node list decomposes as
`pre ++ n :: post` with `n` matching the (non-falsy) requested zoom and
nothing in `post` matching, `load_microns_per_pixel` returns `n`'s
scales — i.e. the values of the LAST matching node in document order —
and recomputes `max_tip_distance_pixels` from them. -/
theorem load_microns_per_pixel_last_match (st : OAVScaleState) (zoom : ℚ)
    (pre post : List ZoomLevelNode) (n : ZoomLevelNode)
    (hzoom : zoom ≠ 0) (hn : n.level = zoom) (hpost : ∀ m ∈ post, m.level ≠ zoom)
    (hparams : st.zoom_params = pre ++ n :: post) :
    load_microns_per_pixel st (some zoom) =
      .ok { st with
            micronsPerXPixel := some n.micronsPerXPixel
            micronsPerYPixel := some n.micronsPerYPixel
            max_tip_distance_pixels := some (st.max_tip_distance / n.micronsPerXPixel) } := by
  unfold load_microns_per_pixel
  simp only [effectiveZoom, if_neg hzoom]
  rw [hparams, scanZoomLevels_eq_last pre post n zoom hn hpost]

/-- Witness for C4's amended theorem at the claim's calibration table,
whose single level-`5` node is last. -/
theorem load_microns_per_pixel_last_match_witness :
    load_microns_per_pixel claimCalibState (some 5) =
      .ok { claimCalibState with
            micronsPerXPixel := some (1/2)
            micronsPerYPixel := some (1/2)
            max_tip_distance_pixels := some (claimCalibState.max_tip_distance / (1/2)) } := by
  have h := load_microns_per_pixel_last_match claimCalibState 5 [⟨1, 5/2, 5/2⟩] []
    ⟨5, 1/2, 1/2⟩ (by norm_num) rfl (by simp) rfl
  exact h

/-- C5 counterexample: a line that merely begins with the marker literal
and continues with further characters IS treated as the marker:
`startswith` accepts it, it differs from the literal, and extraction
succeeds using the two lines that follow it. -/
theorem marker_prefix_counterexample :
    pyStartswith (zoomMarker "5.0" ++ "junk\n") (zoomMarker "5.0") = true ∧
    zoomMarker "5.0" ++ "junk\n" ≠ zoomMarker "5.0" ∧
    extract_beam_position "5.0" [zoomMarker "5.0" ++ "junk\n", "x = 7\n", "y = 9\n"] =
      .ok (7, 9) :=
  ⟨by decide, by decide, rfl⟩

/-- C5 amended: a line is treated as the marker for the active zoom if
and only if it BEGINS with the literal `"zoomLevel = " + str(zoom)` —
equivalently, it is that literal followed by an arbitrary (possibly
empty) character suffix.  (Lines produced by `readlines()` keep their
trailing newline, so exact equality would never hold for any
newline-terminated line.) -/
theorem line_matches_iff_starts_with_marker (zoomStr line : String) :
    pyStartswith line (zoomMarker zoomStr) = true ↔
      ∃ rest : List Char, line.data = (zoomMarker zoomStr).data ++ rest := by
  unfold pyStartswith
  rw [ List.isPrefixOf_iff_prefix]
  constructor
  · rintro ⟨t, ht⟩
    exact ⟨t, ht.symm⟩
  · rintro ⟨t, ht⟩
    exact ⟨t, ht.symm⟩

/-- C6 counterexample: a missing JSON file makes `load_json` raise the
built-in `FileNotFoundError`, which is not one of the module's typed
`OAVError_*` exceptions — no `FileAccessError`/`FileError` exists in
the module's taxonomy. -/
theorem load_json_missing_counterexample :
    load_json .missing = .error .fileNotFoundError ∧
    PyError.isOAVModuleError .fileNotFoundError = false :=
  ⟨rfl, rfl⟩

/-- C6 amended: `load_json` propagates the underlying built-in errors —
`FileNotFoundError` from `open` for a missing file and
`json.JSONDecodeError` from `json.load` for malformed text — and
neither belongs to the module's typed error taxonomy. -/
theorem load_json_raises_builtin_errors :
    load_json .missing = .error .fileNotFoundError ∧
    load_json .malformed = .error .jsonDecodeError ∧
    PyError.isOAVModuleError .fileNotFoundError = false ∧
    PyError.isOAVModuleError .jsonDecodeError = false :=
  ⟨rfl, rfl, rfl, rfl⟩

/-- C7 counterexample: a calibration file with TWO nodes at the
requested level `2` does not make `load_microns_per_pixel` fail — the
call succeeds (the last match wins), refuting the claim's "exactly one
match must exist" in its more-than-one direction. -/
theorem duplicate_zoom_matches_counterexample :
    dupLevelStateB.zoom_params.countP (fun m => m.level == 2) = 2 ∧
    exceptIsOk (load_microns_per_pixel dupLevelStateB (some 2)) = true :=
  ⟨by decide, by decide⟩

/-- C7 amended: at least one match must exist — if no node's level
equals the (non-falsy) requested zoom, `load_microns_per_pixel` raises
`OAVError_ZoomLevelNotFound`; multiple matches are accepted. -/
theorem absent_zoom_raises_zoomLevelNotFound (st : OAVScaleState) (zoom : ℚ)
    (hzoom : zoom ≠ 0) (h : ∀ m ∈ st.zoom_params, m.level ≠ zoom) :
    load_microns_per_pixel st (some zoom) =
      .error (.zoomLevelNotFound (zoomLevelNotFoundMsg zoom)) := by
  unfold load_microns_per_pixel
  simp only [effectiveZoom, if_neg hzoom]
  rw [scanZoomLevels_eq_none st.zoom_params zoom h]

/-- Witness for C7's amended theorem: the claim's calibration table has
no level-`3` node, so requesting zoom `3` raises the typed error. -/
theorem absent_zoom_raises_zoomLevelNotFound_witness :
    (3 : ℚ) ≠ 0 ∧
    load_microns_per_pixel claimCalibState (some 3) =
      .error (.zoomLevelNotFound (zoomLevelNotFoundMsg 3)) :=
  ⟨by norm_num,
   absent_zoom_raises_zoomLevelNotFound claimCalibState 3 (by norm_num)
     (by norm_num [claimCalibState])⟩

/-- C8: after every successful `load_microns_per_pixel` the invariant
`max_tip_distance_pixels = max_tip_distance / micronsPerXPixel` holds in
the resulting state. -/
theorem max_tip_distance_pixels_invariant (st st' : OAVScaleState) (zoom : Option ℚ)
    (h : load_microns_per_pixel st zoom = .ok st') :
    ∃ mx, st'.micronsPerXPixel = some mx ∧
      st'.max_tip_distance_pixels = some (st'.max_tip_distance / mx) := by
  unfold load_microns_per_pixel at h
  rcases hscan : scanZoomLevels st.zoom_params (effectiveZoom st zoom) with _ | ⟨mx, my⟩ <;>
    rw [hscan] at h
  · simp at h
  · cases h
    exact ⟨mx, rfl, rfl⟩

/-- Witness for C8's theorem at the claim's concrete input: calibration
entries `{1.0: (2.5, 2.5), 5.0: (0.5, 0.5)}` and `max_tip_distance =
300` at zoom `5.0` yield `micronsPerXPixel = 0.5` and
`max_tip_distance_pixels = 600`. -/
theorem max_tip_distance_pixels_invariant_witness :
    (∃ mx, claimCalibPost.micronsPerXPixel = some mx ∧
      claimCalibPost.max_tip_distance_pixels = some (claimCalibPost.max_tip_distance / mx)) ∧
    claimCalibPost.micronsPerXPixel = some (1/2) ∧
    claimCalibPost.max_tip_distance_pixels = some 600 :=
  ⟨max_tip_distance_pixels_invariant claimCalibState claimCalibPost (some 5)
     (by norm_num [load_microns_per_pixel, effectiveZoom, scanZoomLevels, claimCalibState,
       claimCalibPost]),
   rfl, rfl⟩

/-- C9: `calculate_beam_distance` is the pure affine map
`(h, v) ↦ (beam_centre_i - h, beam_centre_j - v)` of its arguments (the
embedding is a pure function of the two stored beam-centre fields, with
no state update); in particular it sends the beam centre itself to
`(0, 0)` and `(bx - 3, bj - 4)` to `(3, 4)`. -/
theorem calculate_beam_distance_affine (bx bj h v : ℤ) :
    calculate_beam_distance bx bj h v = (bx - h, bj - v) ∧
    calculate_beam_distance bx bj bx bj = (0, 0) ∧
    calculate_beam_distance bx bj (bx - 3) (bj - 4) = (3, 4) := by
  refine ⟨rfl, ?_, ?_⟩ <;> simp [calculate_beam_distance]

/-- C10: a falsy zoom argument (`0`, covering Python's `0` and `0.0`) is
ignored by `load_microns_per_pixel`: the call behaves exactly like the
default `None`, and the level actually looked up is the stored
`self.zoom` — so a calibration entry for level `0` can never be
requested explicitly through the `zoom` parameter. -/
theorem falsy_zoom_uses_stored_zoom (st : OAVScaleState) (zoom : ℚ) (hz : zoom = 0) :
    load_microns_per_pixel st (some zoom) = load_microns_per_pixel st none ∧
    effectiveZoom st (some zoom) = st.zoom := by
  subst hz
  refine ⟨?_, ?_⟩ <;> simp [load_microns_per_pixel, effectiveZoom]

/-- Witness for C10's theorem at `zoom = 0` on the claim's calibration
state. -/
theorem falsy_zoom_uses_stored_zoom_witness :
    (0 : ℚ) = 0 ∧
    (load_microns_per_pixel claimCalibState (some 0) =
      load_microns_per_pixel claimCalibState none ∧
    effectiveZoom claimCalibState (some 0) = claimCalibState.zoom) :=
  ⟨rfl, falsy_zoom_uses_stored_zoom claimCalibState 0 rfl⟩
